import Mathlib

/-!
Verification of the waSCC Actix HTTP server capability provider
(`src/lib.rs`).  The provider maintains a registry of running HTTP
listeners keyed by module identity, and for each inbound HTTP request
translates it into a canonical request value, dispatches it to the owning
module, and translates the reply (or failure) back into a wire response.

The embedding models `std::collections::HashMap<String, V>` by its
observable semantics (lookup, key-membership, per-key entry count) as an
association list whose `insert` replaces any previous entry for the key,
exactly as `HashMap::insert` does.  Panics (`unwrap` on a failing value)
are modelled as `none` results, and fallible external collaborators
(the dispatcher, the wire codec) are passed in as oracle functions.
-/

namespace HttpServerProvider

/-- String-keyed association map mirroring `HashMap<String, V>`'s
observable behaviour. -/
abbrev SMap (V : Type) := List (String × V)

/-- Model of `HashMap::get`: the value stored for key `k`, if any. -/
def SMap.find? {V : Type} (k : String) : SMap V → Option V
  | [] => none
  | (k', v) :: rest => if k' == k then some v else SMap.find? k rest

/-- Model of `HashMap::contains_key`. -/
def SMap.containsKey {V : Type} (k : String) (m : SMap V) : Bool :=
  m.any (fun p => p.1 == k)

/-- Model of `HashMap::insert`: stores `v` for `k`, replacing any previous entry
for that key. -/
def SMap.insert {V : Type} (k : String) (v : V) (m : SMap V) : SMap V :=
  (k, v) :: m.filter (fun p => !(p.1 == k))

/-- Model of `HashMap::remove`: drops the entry for `k`, if any. -/
def SMap.remove {V : Type} (k : String) (m : SMap V) : SMap V :=
  m.filter (fun p => !(p.1 == k))

/-- Number of entries stored under key `k` (for a `HashMap` this is
always `0` or `1`; we prove the maps built by the provider keep it so). -/
def SMap.entryCount {V : Type} (k : String) (m : SMap V) : Nat :=
  (m.filter (fun p => p.1 == k)).length

/-- A byte, as transported in request/response bodies. -/
abbrev Byte := Nat

/-- Model of `wascc_codec::core::CapabilityConfiguration`: a module identity plus
a string-to-string configuration map. -/
structure CapabilityConfiguration where
  module : String
  values : SMap String
  deriving Repr, DecidableEq

/-- An `actix_web::dev::Server` handle, opaque to the provider; only its
identity matters for registry reasoning. -/
structure Server where
  id : Nat
  deriving Repr, DecidableEq

/-- The listener registry: `HashMap<String, Server>` keyed by module id. -/
abbrev Registry := SMap Server

/-- Model of `codec::http::Request` as built by `request_handler`. -/
structure Request where
  method : String
  path : String
  query_string : String
  header : SMap String
  body : List Byte
  deriving Repr, DecidableEq

/-- Model of `codec::http::Response` as returned by the module: the Canonical
HTTP Response. -/
structure Response where
  status_code : Nat
  header : SMap String
  body : List Byte
  deriving Repr, DecidableEq

/-- The wire-level HTTP response handed back to the network client,
as produced by `HttpResponse::with_body(status, body)`. -/
structure WireResponse where
  status : Nat
  headers : SMap String
  body : List Byte
  deriving Repr, DecidableEq

/-- Value of `wascc_codec::core::OP_BIND_ACTOR`. -/
def OP_BIND_ACTOR : String := "BindActor"

/-- Value of `wascc_codec::core::OP_REMOVE_ACTOR`. -/
def OP_REMOVE_ACTOR : String := "RemoveActor"

/-- Model of `HttpServerProvider::terminate_server` (lib.rs:57-74): under the read
lock, if the module has no registry entry, log and return leaving the
registry untouched; otherwise stop the server and, under the write lock,
remove its entry. -/
def terminate_server (module : String) (servers : Registry) : Registry :=
  if SMap.containsKey module servers then SMap.remove module servers
  else servers

/-- The bind-address computation at the top of
`HttpServerProvider::spawn_server` (lib.rs:78-86): `PORT` defaults to
`"8080"`, `HOST` to `"0.0.0.0"`, address is `format!("{}:{}", host, port)`. -/
def bind_addr (values : SMap String) : String :=
  let bind_port := match SMap.find? "PORT" values with
    | some s => s
    | none => "8080"
  let bind_host := match SMap.find? "HOST" values with
    | some s => s
    | none => "0.0.0.0"
  bind_host ++ ":" ++ bind_port

/-- The effect of the thread spawned by `HttpServerProvider::spawn_server`
(lib.rs:94-112) on the listener registry.  `bindResult` is the outcome of
`HttpServer::bind(bind_addr)`: on failure the `.unwrap()` panics the
spawned thread (so nothing is registered and the host process survives,
since a panicking child thread does not abort the process); on success
the server handle is inserted under the module id. -/
def spawn_server (cfg : CapabilityConfiguration) (bindResult : Option Server)
    (servers : Registry) : Registry :=
  match bindResult with
  | none => servers
  | some server => SMap.insert cfg.module server servers

/-- Model of `HttpServerProvider::handle_call` (lib.rs:151-172).  `msg` stands for
the raw payload together with its deserialization outcome
(`none` = `deserialize` fails, making the `?` return an error);
`bindResult` is the bind outcome used by `spawn_server` when invoked.
Returns the `Result<Vec<u8>, _>` paired with the registry state after the
call (including the spawned thread's eventual registration). -/
def handle_call (origin op : String) (msg : Option CapabilityConfiguration)
    (bindResult : Option Server) (servers : Registry) :
    Except String (List Byte) × Registry :=
  if op == OP_BIND_ACTOR && origin == "system" then
    match msg with
    | none => (Except.error "deserialization failure", servers)
    | some cfgvals => (Except.ok [], spawn_server cfgvals bindResult servers)
  else if op == OP_REMOVE_ACTOR && origin == "system" then
    match msg with
    | none => (Except.error "deserialization failure", servers)
    | some cfgvals => (Except.ok [], terminate_server cfgvals.module servers)
  else
    (Except.error ("Unknown operation: " ++ op), servers)

/-- A raw inbound HTTP request as seen by `request_handler`: the header
list preserves wire order and multiplicity; each value is the result of
`HeaderValue::to_str()` (`none` when the bytes are not visible ASCII, in
which case the `.unwrap()` in `extract_headers` panics). -/
structure RawRequest where
  method : String
  path : String
  query_string : String
  headers : List (String × Option String)
  body : List Byte
  deriving Repr, DecidableEq

/-- Model of `extract_headers` (lib.rs:212-223): folds the wire header list into a
`HashMap` in order, so later duplicates overwrite earlier ones; a header
value that is not visible ASCII makes `to_str().unwrap()` panic, modelled
as `none`. -/
def extract_headers_from (hm : SMap String) :
    List (String × Option String) → Option (SMap String)
  | [] => some hm
  | (_, none) :: _ => none
  | (hname, some hval) :: rest =>
      extract_headers_from (SMap.insert hname hval hm) rest

/-- Running `extract_headers` on a whole raw request, starting from the empty map
(`HashMap::new()`). -/
def extract_headers (req : RawRequest) : Option (SMap String) :=
  extract_headers_from [] req.headers

/-- Model of `actix_web::http::StatusCode::from_u16`: succeeds exactly on
`100..=999`; `request_handler` unwraps it, so an out-of-range code
panics. -/
def statusCodeFromU16 (n : Nat) : Option Nat :=
  if 100 ≤ n ∧ n < 1000 then some n else none

/-- The fixed diagnostic body `b"Failed to handle request"`. -/
def failedBody : List Byte :=
  (String.toUTF8 "Failed to handle request").toList.map (fun b => b.toNat)

/-- Construction of the `codec::http::Request` value (lib.rs:181-187)
from the raw request and the already-extracted header mapping. -/
def built_request (req : RawRequest) (header : SMap String) : Request :=
  { method := req.method
    path := req.path
    query_string := req.query_string
    header := header
    body := req.body }

/-- Model of `request_handler` (lib.rs:175-210).  `dispatcher` is the captured
dispatch handle applied to the serialized canonical request (the binary
codec is an external contract, so dispatch is modelled directly on the
`Request` value); `deserializeResponse` is `deserialize::<codec::http::Response>`
on the success payload (`none` = undecodable).  A `none` overall result
models a panic in the handler (no HTTP response is produced); a `some`
result is the wire response sent to the client.

Failures of `dispatch` become the fixed 500 response (lib.rs:202-208);
on success the payload is deserialized with `.unwrap()`, the status code
is cast `as u16` (`% 2^16`) and unwrapped through `StatusCode::from_u16`,
and the wire response is `HttpResponse::with_body(status, body)` — the
module's header mapping is never copied onto the wire response. -/
def request_handler (req : RawRequest)
    (dispatcher : Request → Except String (List Byte))
    (deserializeResponse : List Byte → Option Response) : Option WireResponse :=
  match extract_headers req with
  | none => none
  | some header =>
    match dispatcher (built_request req header) with
    | Except.error _ =>
        some { status := 500, headers := [], body := failedBody }
    | Except.ok payload =>
      match deserializeResponse payload with
      | none => none
      | some r =>
        match statusCodeFromU16 (r.status_code % 65536) with
        | none => none
        | some status =>
            some { status := status, headers := [], body := r.body }

/-! Basic facts about the `HashMap` model. -/

theorem SMap.find?_insert_self {V : Type} (k : String) (v : V) (m : SMap V) :
    SMap.find? k (SMap.insert k v m) = some v := by
  simp [SMap.insert, SMap.find?]

theorem SMap.find?_filter_ne {V : Type} {k n : String} (h : (k == n) = false)
    (m : SMap V) :
    SMap.find? n (m.filter (fun p => !(p.1 == k))) = SMap.find? n m := by
  induction m with
  | nil => rfl
  | cons a m ih =>
    by_cases ha : a.1 == k
    · have : (a.1 == n) = false := by
        have hak : a.1 = k := eq_of_beq ha
        subst hak
        exact h
      simp [List.filter_cons, ha, SMap.find?, this, ih]
    · simp only [List.filter_cons, ha]
      simp only [Bool.not_false, if_true]
      by_cases han : a.1 == n
      · simp [SMap.find?, han]
      · simp [SMap.find?, han, ih]

theorem SMap.find?_insert_ne {V : Type} {k n : String} (h : (k == n) = false)
    (v : V) (m : SMap V) :
    SMap.find? n (SMap.insert k v m) = SMap.find? n m := by
  simp [SMap.insert, SMap.find?, h, SMap.find?_filter_ne h]

theorem SMap.filter_key_filter_not_key {V : Type} (k : String) (m : SMap V) :
    (m.filter (fun p => !(p.1 == k))).filter (fun p => p.1 == k) = [] := by
  induction m with
  | nil => rfl
  | cons a m ih =>
    by_cases ha : a.1 == k
    · simp [List.filter_cons, ha, ih]
    · simp [List.filter_cons, ha, ih]

theorem SMap.entryCount_insert_self {V : Type} (k : String) (v : V) (m : SMap V) :
    SMap.entryCount k (SMap.insert k v m) = 1 := by
  simp [SMap.entryCount, SMap.insert, List.filter_cons,
    SMap.filter_key_filter_not_key]

theorem SMap.filter_ne_key_filter_not_key {V : Type} {k n : String}
    (h : (k == n) = false) (m : SMap V) :
    (m.filter (fun p => !(p.1 == k))).filter (fun p => p.1 == n)
      = m.filter (fun p => p.1 == n) := by
  induction m with
  | nil => rfl
  | cons a m ih =>
    by_cases ha : a.1 == k
    · have : (a.1 == n) = false := by
        have hak : a.1 = k := eq_of_beq ha
        subst hak
        exact h
      simp [List.filter_cons, ha, this, ih]
    · by_cases han : a.1 == n
      · simp [List.filter_cons, ha, han, ih]
      · simp [List.filter_cons, ha, han, ih]

theorem SMap.entryCount_insert_ne {V : Type} {k n : String}
    (h : (k == n) = false) (v : V) (m : SMap V) :
    SMap.entryCount n (SMap.insert k v m) = SMap.entryCount n m := by
  simp [SMap.entryCount, SMap.insert, List.filter_cons, h,
    SMap.filter_ne_key_filter_not_key h]

theorem SMap.containsKey_remove_self {V : Type} (k : String) (m : SMap V) :
    SMap.containsKey k (SMap.remove k m) = false := by
  induction m with
  | nil => rfl
  | cons a m ih =>
    by_cases ha : a.1 == k
    · simp_all [SMap.remove, SMap.containsKey, List.filter_cons, ha]
    · simp_all [SMap.remove, SMap.containsKey, List.filter_cons, ha]

/-- First-some choice on options, used to state the fold lemmas below. -/
def orElseOpt {α : Type} : Option α → Option α → Option α
  | some a, _ => some a
  | none, b => b

theorem getLast?_cons_or {α : Type} (a : α) (l : List α) :
    (a :: l).getLast? = orElseOpt l.getLast? (some a) := by
  cases l with
  | nil => rfl
  | cons b l =>
    rw [List.getLast?_cons_cons]
    cases h : (b :: l).getLast? with
    | some x => rfl
    | none =>
      exfalso
      have hne : (b :: l) ≠ [] := by simp
      rw [← List.getLast?_isSome] at hne
      simp [h] at hne

theorem SMap.find?_foldl_insert (n : String) (hs : List (String × String))
    (acc : SMap String) :
    SMap.find? n (hs.foldl (fun m p => SMap.insert p.1 p.2 m) acc)
      = orElseOpt (((hs.filter (fun p => p.1 == n)).map Prod.snd).getLast?)
          (SMap.find? n acc) := by
  induction hs generalizing acc with
  | nil => rfl
  | cons a hs ih =>
    rw [List.foldl_cons, ih]
    by_cases ha : a.1 == n
    · have ha' : a.1 = n := eq_of_beq ha
      subst ha'
      rw [SMap.find?_insert_self]
      simp only [List.filter_cons, ha, if_true, List.map_cons, getLast?_cons_or]
      cases hX : ((hs.filter (fun p => p.1 == a.1)).map Prod.snd).getLast? with
      | none => simp [orElseOpt]
      | some x => simp [orElseOpt]
    · have ha0 : (a.1 == n) = false := by simpa using ha
      rw [SMap.find?_insert_ne ha0]
      simp [List.filter_cons, ha0]

theorem SMap.entryCount_foldl_insert (n : String) (hs : List (String × String))
    (acc : SMap String) :
    SMap.entryCount n (hs.foldl (fun m p => SMap.insert p.1 p.2 m) acc)
      = if hs.any (fun p => p.1 == n) then 1 else SMap.entryCount n acc := by
  induction hs generalizing acc with
  | nil => simp
  | cons a hs ih =>
    rw [List.foldl_cons, ih]
    by_cases ha : a.1 == n
    · have ha' : a.1 = n := eq_of_beq ha
      subst ha'
      by_cases hany : hs.any (fun p => p.1 == a.1)
      · simp [hany, List.any_cons, ha]
      · simp [hany, List.any_cons, ha, SMap.entryCount_insert_self]
    · have ha0 : (a.1 == n) = false := by simpa using ha
      simp only [List.any_cons, ha0, Bool.false_or]
      by_cases hany : hs.any (fun p => p.1 == n)
      · simp [hany]
      · simp [hany, SMap.entryCount_insert_ne ha0]

theorem extract_headers_from_all_valid (hs : List (String × String))
    (acc : SMap String) :
    extract_headers_from acc (hs.map (fun p => (p.1, some p.2)))
      = some (hs.foldl (fun m p => SMap.insert p.1 p.2 m) acc) := by
  induction hs generalizing acc with
  | nil => rfl
  | cons a hs ih =>
    obtain ⟨k, v⟩ := a
    simp [extract_headers_from, List.map_cons, ih, List.foldl_cons]

theorem extract_headers_from_none_mem (hs : List (String × Option String))
    (acc : SMap String) (h : ∃ p ∈ hs, p.2 = none) :
    extract_headers_from acc hs = none := by
  induction hs generalizing acc with
  | nil => simp at h
  | cons a hs ih =>
    obtain ⟨k, v⟩ := a
    cases v with
    | none => rfl
    | some s =>
      apply ih
      rcases h with ⟨p, hp, hpn⟩
      rcases List.mem_cons.mp hp with h1 | h2
      · subst h1
        simp at hpn
      · exact ⟨p, h2, hpn⟩

/-- Claim C1: whenever the dispatch call for a request returns an error,
`request_handler` produces an HTTP response with status 500 and body
exactly `"Failed to handle request"`, and the failure does not propagate
beyond that single request: the handler returns normally (a `some`
response, not a panic), and since the handler is a pure per-request
function of the request and the shared dispatch handle, subsequent
requests are served unaffected. -/
theorem dispatch_error_yields_fixed_500 (req : RawRequest)
    (dispatcher : Request → Except String (List Byte))
    (deserializeResponse : List Byte → Option Response)
    (hdr : SMap String) (e : String)
    (hh : extract_headers req = some hdr)
    (hd : dispatcher (built_request req hdr) = Except.error e) :
    request_handler req dispatcher deserializeResponse
      = some { status := 500, headers := [], body := failedBody } := by
  simp [request_handler, hh, hd]

/-- Witness for C1 at a concrete request and an always-erroring
dispatcher. -/
theorem dispatch_error_yields_fixed_500_witness :
    request_handler ⟨"GET", "/", "", [], []⟩ (fun _ => Except.error "boom")
        (fun _ => none)
      = some { status := 500, headers := [], body := failedBody } :=
  dispatch_error_yields_fixed_500 ⟨"GET", "/", "", [], []⟩
    (fun _ => Except.error "boom") (fun _ => none) [] "boom" rfl rfl

/-- Counterexample to claim C2: the claim says the wire response headers
equal the module's header mapping, but `request_handler` builds the wire
response with `HttpResponse::with_body(status, body)` and never copies
the module's headers.  Here the module responds with status 201, header
mapping `[("x-test", "yes")]` and body `"ok"`, yet the wire response
carries no headers. -/
theorem response_headers_dropped_counterexample :
    request_handler ⟨"GET", "/", "", [], []⟩ (fun _ => Except.ok [0])
        (fun _ => some { status_code := 201, header := [("x-test", "yes")],
                         body := [111, 107] })
      = some { status := 201, headers := [], body := [111, 107] } ∧
    ({ status := 201, headers := [], body := [111, 107] } : WireResponse).headers
      ≠ ({ status_code := 201, header := [("x-test", "yes")],
           body := [111, 107] } : Response).header := by
  refine ⟨by decide, by decide⟩

/-- Claim C2 as amended: for a dispatch success whose payload decodes and
whose status code (cast `as u16`, i.e. mod 2^16) is a valid HTTP status,
the wire response mirrors the module's `status_code` and `body`
byte-for-byte, but the module's header mapping is NOT copied — the wire
response carries no headers. -/
theorem dispatch_success_mirrors_status_and_body (req : RawRequest)
    (dispatcher : Request → Except String (List Byte))
    (deserializeResponse : List Byte → Option Response)
    (hdr : SMap String) (payload : List Byte) (r : Response)
    (hh : extract_headers req = some hdr)
    (hd : dispatcher (built_request req hdr) = Except.ok payload)
    (hr : deserializeResponse payload = some r)
    (hlo : 100 ≤ r.status_code % 65536) (hhi : r.status_code % 65536 < 1000) :
    request_handler req dispatcher deserializeResponse
      = some { status := r.status_code % 65536, headers := [], body := r.body } := by
  simp [request_handler, hh, hd, hr, statusCodeFromU16, hlo, hhi]

/-- Witness for the amended C2 at a concrete module response
`{status_code := 201, body := "ok"}`. -/
theorem dispatch_success_mirrors_status_and_body_witness :
    request_handler ⟨"GET", "/", "", [], []⟩ (fun _ => Except.ok [0])
        (fun _ => some { status_code := 201, header := [("x-test", "yes")],
                         body := [111, 107] })
      = some { status := 201 % 65536, headers := [], body := [111, 107] } :=
  dispatch_success_mirrors_status_and_body ⟨"GET", "/", "", [], []⟩
    (fun _ => Except.ok [0])
    (fun _ => some { status_code := 201, header := [("x-test", "yes")],
                     body := [111, 107] })
    [] [0] { status_code := 201, header := [("x-test", "yes")], body := [111, 107] }
    rfl rfl rfl (by decide) (by decide)

/-- Counterexample to claim C3: a success payload that cannot be decoded
as a Canonical HTTP Response is NOT converted to a 500 response; the
`.unwrap()` on `deserialize` panics the handler (modelled `none`), so no
response — in particular not the fixed 500 — is produced. -/
theorem malformed_payload_not_500_counterexample :
    request_handler ⟨"GET", "/", "", [], []⟩ (fun _ => Except.ok [7])
        (fun _ => none) = none ∧
    (none : Option WireResponse)
      ≠ some { status := 500, headers := [], body := failedBody } :=
  ⟨rfl, by simp⟩

/-- Claim C3 as amended: a dispatch success whose payload cannot be
decoded as a Canonical HTTP Response makes `request_handler` panic via
`deserialize(..).unwrap()` — it produces no HTTP response at all
(in particular never a silent 200); the panic is confined to that
request's handling and the registry and other listeners are untouched. -/
theorem malformed_payload_panics (req : RawRequest)
    (dispatcher : Request → Except String (List Byte))
    (deserializeResponse : List Byte → Option Response)
    (hdr : SMap String) (payload : List Byte)
    (hh : extract_headers req = some hdr)
    (hd : dispatcher (built_request req hdr) = Except.ok payload)
    (hr : deserializeResponse payload = none) :
    request_handler req dispatcher deserializeResponse = none := by
  simp [request_handler, hh, hd, hr]

/-- Witness for the amended C3 at a concrete undecodable payload. -/
theorem malformed_payload_panics_witness :
    request_handler ⟨"GET", "/", "", [], []⟩ (fun _ => Except.ok [7])
        (fun _ => none) = none :=
  malformed_payload_panics ⟨"GET", "/", "", [], []⟩ (fun _ => Except.ok [7])
    (fun _ => none) [] [7] rfl rfl rfl

/-- Claim C4: any `(origin, operation)` pair other than
`("system", OP_BIND_ACTOR)` and `("system", OP_REMOVE_ACTOR)` makes
`handle_call` return the error `"Unknown operation: <operation>"` and
leaves the listener registry unmutated; in particular a bind or unbind
from a non-`"system"` origin starts or stops nothing. -/
theorem unknown_operation_rejected (origin op : String)
    (msg : Option CapabilityConfiguration) (bindResult : Option Server)
    (servers : Registry)
    (h1 : ¬ (origin = "system" ∧ op = OP_BIND_ACTOR))
    (h2 : ¬ (origin = "system" ∧ op = OP_REMOVE_ACTOR)) :
    handle_call origin op msg bindResult servers
      = (Except.error ("Unknown operation: " ++ op), servers) := by
  have hb : (op == OP_BIND_ACTOR && origin == "system") = false := by
    cases hop : op == OP_BIND_ACTOR
    · simp
    · cases hor : origin == "system"
      · simp
      · exact absurd ⟨eq_of_beq hor, eq_of_beq hop⟩ h1
  have hu : (op == OP_REMOVE_ACTOR && origin == "system") = false := by
    cases hop : op == OP_REMOVE_ACTOR
    · simp
    · cases hor : origin == "system"
      · simp
      · exact absurd ⟨eq_of_beq hor, eq_of_beq hop⟩ h2
  simp [handle_call, hb, hu]

/-- Witness for C4: a bind request from the non-trusted origin
`"module-a"` is rejected and registers nothing. -/
theorem unknown_operation_rejected_witness :
    handle_call "module-a" OP_BIND_ACTOR
        (some { module := "m1", values := [] }) (some ⟨1⟩) []
      = (Except.error ("Unknown operation: " ++ OP_BIND_ACTOR), []) :=
  unknown_operation_rejected "module-a" OP_BIND_ACTOR
    (some { module := "m1", values := [] }) (some ⟨1⟩) []
    (by decide) (by decide)

/-- Claim C5: `terminate_server` on a module absent from the registry
returns without error leaving the registry unchanged (idempotent no-op),
and after any `terminate_server module` call the module is absent from
the registry. -/
theorem stop_idempotent_and_removes (module : String) (servers : Registry) :
    (SMap.containsKey module servers = false →
        terminate_server module servers = servers) ∧
    SMap.containsKey module (terminate_server module servers) = false := by
  constructor
  · intro h
    simp [terminate_server, h]
  · by_cases h : SMap.containsKey module servers
    · simp [terminate_server, h, SMap.containsKey_remove_self]
    · have h0 : SMap.containsKey module servers = false := by simpa using h
      simp [terminate_server, h0]

/-- Witness for C5: stopping `"m1"` on the empty registry is a no-op, and
stopping `"m1"` when registered leaves it absent. -/
theorem stop_idempotent_and_removes_witness :
    terminate_server "m1" [] = [] ∧
    SMap.containsKey "m1" (terminate_server "m1" [("m1", ⟨1⟩)]) = false :=
  ⟨(stop_idempotent_and_removes "m1" []).1 (by decide),
   (stop_idempotent_and_removes "m1" [("m1", ⟨1⟩)]).2⟩

/-- Claim C6: the registry keeps at most one listener handle per
ModuleId — after any nonempty sequence of (successfully bound) start
calls for the same module, exactly one registry entry exists for it, and
it holds the handle of the last start (the entry is simply
overwritten). -/
theorem registry_one_entry_per_module (cfg : CapabilityConfiguration)
    (servers : Registry) (h0 : Server) (hs : List Server) :
    SMap.entryCount cfg.module
        ((h0 :: hs).foldl (fun acc h => spawn_server cfg (some h) acc) servers)
      = 1 ∧
    SMap.find? cfg.module
        ((h0 :: hs).foldl (fun acc h => spawn_server cfg (some h) acc) servers)
      = (h0 :: hs).getLast? := by
  induction hs generalizing h0 servers with
  | nil =>
    constructor
    · simp [spawn_server, SMap.entryCount_insert_self]
    · simp [spawn_server, SMap.find?_insert_self]
  | cons h1 hs ih =>
    rw [List.getLast?_cons_cons]
    exact ih (spawn_server cfg (some h0) servers) h1

/-- Claim C7: the server handle is registered only after the bind
succeeds — a bind failure (the spawned thread panics on `.unwrap()`)
registers nothing and leaves the registry unchanged (so the failure is
fatal only to that module's startup and, being a panic in a child
thread, does not crash the host process), while a successful bind
registers the handle under the module id. -/
theorem bind_gates_registration (cfg : CapabilityConfiguration)
    (servers : Registry) (srv : Server) :
    spawn_server cfg none servers = servers ∧
    SMap.find? cfg.module (spawn_server cfg (some srv) servers) = some srv :=
  ⟨rfl, SMap.find?_insert_self cfg.module srv servers⟩

/-- Claim C8: for a request whose (visible-ASCII) header list contains a
name — in particular a name occurring two or more times — the header
mapping of the Canonical HTTP Request contains exactly one entry for
that name, holding the value of its last occurrence in the request
(last-value-wins folding). -/
theorem duplicate_headers_last_wins (req : RawRequest)
    (hs : List (String × String)) (n : String)
    (hreq : req.headers = hs.map (fun p => (p.1, some p.2)))
    (hmem : hs.any (fun p => p.1 == n) = true) :
    ∃ hm, extract_headers req = some hm ∧
      SMap.entryCount n hm = 1 ∧
      SMap.find? n hm
        = ((hs.filter (fun p => p.1 == n)).map Prod.snd).getLast? := by
  refine ⟨hs.foldl (fun m p => SMap.insert p.1 p.2 m) [], ?_, ?_, ?_⟩
  · rw [extract_headers, hreq, extract_headers_from_all_valid]
  · rw [SMap.entryCount_foldl_insert]
    simp [hmem]
  · rw [SMap.find?_foldl_insert]
    cases hX : ((hs.filter (fun p => p.1 == n)).map Prod.snd).getLast? with
    | none => simp [orElseOpt, SMap.find?]
    | some x => simp [orElseOpt]

/-- Witness for C8: a request with two `"a"` headers folds to the later
value `"2"`. -/
theorem duplicate_headers_last_wins_witness :
    ∃ hm, extract_headers ⟨"GET", "/", "",
        [("a", some "1"), ("a", some "2")], []⟩ = some hm ∧
      SMap.entryCount "a" hm = 1 ∧
      SMap.find? "a" hm
        = (([("a", "1"), ("a", "2")].filter
            (fun p => p.1 == "a")).map Prod.snd).getLast? :=
  duplicate_headers_last_wins ⟨"GET", "/", "",
      [("a", some "1"), ("a", some "2")], []⟩
    [("a", "1"), ("a", "2")] "a" rfl (by decide)

/-- Claim C9: the bind address is `HOST:PORT` computed from the
configuration values, with `PORT` defaulting to `"8080"` and `HOST`
to `"0.0.0.0"`; empty values yield `"0.0.0.0:8080"`, and no keys other
than `PORT` and `HOST` affect the address (two value maps agreeing on
those two keys produce the same address). -/
theorem bind_addr_spec :
    bind_addr [] = "0.0.0.0:8080" ∧
    (∀ v : SMap String, SMap.find? "HOST" v = none →
        SMap.find? "PORT" v = none → bind_addr v = "0.0.0.0" ++ ":" ++ "8080") ∧
    (∀ v : SMap String, ∀ h p : String, SMap.find? "HOST" v = some h →
        SMap.find? "PORT" v = some p → bind_addr v = h ++ ":" ++ p) ∧
    (∀ v : SMap String, ∀ p : String, SMap.find? "HOST" v = none →
        SMap.find? "PORT" v = some p → bind_addr v = "0.0.0.0" ++ ":" ++ p) ∧
    (∀ v : SMap String, ∀ h : String, SMap.find? "HOST" v = some h →
        SMap.find? "PORT" v = none → bind_addr v = h ++ ":" ++ "8080") ∧
    (∀ v1 v2 : SMap String, SMap.find? "HOST" v1 = SMap.find? "HOST" v2 →
        SMap.find? "PORT" v1 = SMap.find? "PORT" v2 →
        bind_addr v1 = bind_addr v2) := by
  refine ⟨by decide, ?_, ?_, ?_, ?_, ?_⟩
  · intro v hH hP
    simp [bind_addr, hH, hP]
    decide
  · intro v h p hH hP
    simp [bind_addr, hH, hP]
  · intro v p hH hP
    simp [bind_addr, hH, hP]
    exact congrArg (fun s => s ++ p) (by decide)
  · intro v h hH hP
    simp [bind_addr, hH, hP]
  · intro v1 v2 hH hP
    simp [bind_addr, hH, hP]

/-- Witness for C9: explicit `HOST`/`PORT` values are used verbatim. -/
theorem bind_addr_spec_witness :
    bind_addr [("HOST", "127.0.0.1"), ("PORT", "9100")]
      = "127.0.0.1" ++ ":" ++ "9100" :=
  bind_addr_spec.2.2.1 [("HOST", "127.0.0.1"), ("PORT", "9100")]
    "127.0.0.1" "9100" (by decide) (by decide)

/-- Claim C10: `request_handler` is not total — if any header of the raw
request has a value that is not representable as a visible-ASCII string
(`HeaderValue::to_str()` fails, modelled `none`), the `.unwrap()` in
`extract_headers` panics, so the handler aborts for that request and
produces no HTTP response at all. -/
theorem invalid_header_value_panics (req : RawRequest)
    (dispatcher : Request → Except String (List Byte))
    (deserializeResponse : List Byte → Option Response)
    (h : ∃ p ∈ req.headers, p.2 = none) :
    request_handler req dispatcher deserializeResponse = none := by
  simp [request_handler, extract_headers,
    extract_headers_from_none_mem req.headers [] h]

/-- Witness for C10 at a request with one non-visible-ASCII header
value. -/
theorem invalid_header_value_panics_witness :
    request_handler ⟨"GET", "/", "", [("x-bin", none)], []⟩
        (fun _ => Except.ok []) (fun _ => none) = none :=
  invalid_header_value_panics ⟨"GET", "/", "", [("x-bin", none)], []⟩
    (fun _ => Except.ok []) (fun _ => none)
    ⟨("x-bin", none), by simp, rfl⟩

end HttpServerProvider
